import Mathlib

/-!
Verification development for the VelvetLanguage compiler core
(`src/typecheck/typecheck.rs` and `src/codegen/codegen.rs`).

The Rust code is shallowly embedded:
* the type lattice `T` and the AST `Node` are mirrored as inductive types
  (the per-variant Rust structs become constructor fields; `Option<usize>`
  ids become `Option Nat`);
* `TypeChecker` state (`scopes`, `errors`, `type_table`) is passed
  explicitly; the fields `externals_used` / `path_at` feed only the
  file-system loader `load_externs`, which is outside the checked claims
  and is not modelled;
* `HashMap` frames and the type table are modelled as association lists
  whose insert conses at the head and whose get takes the first match
  (the observable get/insert behaviour of `HashMap`);
* Rust's `Vec` scope stack pushes frames at the end and reads them in
  reverse; the model keeps the innermost frame at the head of the list;
* `Vec::push` on diagnostics appends at the end of the list, preserving
  the order of the batched messages;
* Rust panics (`unwrap`, `expect`, `unimplemented!`, `todo!` and
  `process::exit`) are modelled as `none`;
* recursion of `check_expr` is driven by an explicit fuel parameter;
  fuel exhaustion yields `none`, and the theorems quantify over fuel;
* numeric literal texts produced by the tokenizer are decimal digit
  strings, so `literal_value` is modelled by its numeric value (a `Nat`),
  and `str::parse::<iN/uN>` becomes a bounds check against the type's
  maximum;
* the `vb`/`ts` parameters of `check_expr` only drive `println!` tracing
  and are dropped; ANSI colour codes added by the `colored` crate to some
  message strings are not modelled.
-/

namespace Velvet

/-- Rust's `String`; an alias is needed because `T` itself has a
constructor named `String`. -/
abbrev Str := String

/-- The type lattice `T` of the checker (typecheck.rs, `enum T`). -/
inductive T where
  | Integer8
  | Integer16
  | Integer32
  | Integer64
  | Integer128
  | Boolean
  | Void
  | String
  | Infer
  | ExternWildcard
  | Array (array_t : T) (is_stack_alloca : Bool) (becomes_heap_at : Nat)
      (element_count : Nat)
  | Function (params : List (Str × T)) (return_type : T)
  | Unknown
deriving Repr

mutual

/-- Structural equality on `T` (the `#[derive(PartialEq)]` instance). -/
def T.beq : T → T → Bool
  | .Integer8, .Integer8 => true
  | .Integer16, .Integer16 => true
  | .Integer32, .Integer32 => true
  | .Integer64, .Integer64 => true
  | .Integer128, .Integer128 => true
  | .Boolean, .Boolean => true
  | .Void, .Void => true
  | .String, .String => true
  | .Infer, .Infer => true
  | .ExternWildcard, .ExternWildcard => true
  | .Array a s h c, .Array a' s' h' c' =>
      T.beq a a' && s == s' && h == h' && c == c'
  | .Function ps r, .Function ps' r' => T.beqParams ps ps' && T.beq r r'
  | .Unknown, .Unknown => true
  | _, _ => false

/-- Structural equality on parameter lists (part of `PartialEq` for `T`). -/
def T.beqParams : List (Str × T) → List (Str × T) → Bool
  | [], [] => true
  | (n, t) :: rest, (n', t') :: rest' =>
      n == n' && T.beq t t' && T.beqParams rest rest'
  | _, _ => false

end

/-- `T.beq` is sound and complete for propositional equality; proved by
strong induction on the size of the left argument. -/
theorem T.beq_iff_aux (n : Nat) :
    (∀ a b : T, sizeOf a ≤ n → (T.beq a b = true ↔ a = b)) ∧
    (∀ ps qs : List (Str × T), sizeOf ps ≤ n →
      (T.beqParams ps qs = true ↔ ps = qs)) := by
  induction n with
  | zero =>
    constructor
    · intro a b h
      cases a <;> simp at h
    · intro ps qs h
      cases ps <;> simp at h
  | succ n ih =>
    obtain ⟨ihT, ihP⟩ := ih
    constructor
    · intro a b h
      cases a <;> cases b <;> simp only [T.beq, Bool.and_eq_true, beq_iff_eq] <;>
        try simp
      case Array.Array a s hh c a' s' h' c' =>
        simp at h
        rw [ihT a a' (by omega)]
        try tauto
      case Function.Function ps r ps' r' =>
        simp at h
        rw [ihP ps ps' (by omega), ihT r r' (by omega)]
        try tauto
    · intro ps qs h
      cases ps with
      | nil => cases qs <;> simp [T.beqParams]
      | cons p rest =>
        cases qs with
        | nil => simp [T.beqParams]
        | cons q rest' =>
          obtain ⟨pn, pt⟩ := p
          obtain ⟨qn, qt⟩ := q
          simp only [T.beqParams, Bool.and_eq_true, beq_iff_eq]
          simp at h
          rw [ihT pt qt (by omega), ihP rest rest' (by omega)]
          try simp
          try tauto

/-- Decidable equality on `T`, via `T.beq`. -/
instance : DecidableEq T :=
  fun a b => decidable_of_iff (T.beq a b = true) ((T.beq_iff_aux (sizeOf a)).1 a b le_rfl)

/-- `T::resolve_with_hint`: an array of unresolved length takes the length
of a matching array hint; `Infer` takes the hint; all else is unchanged. -/
def T.resolve_with_hint (self hint : T) : T :=
  match self, hint with
  | .Array array_t is_stack_alloca becomes_heap_at 0,
    .Array hint_ty _ _ hint_len =>
      if array_t = hint_ty then
        .Array array_t is_stack_alloca becomes_heap_at hint_len
      else
        .Array array_t is_stack_alloca becomes_heap_at 0
  | .Infer, _ => hint
  | _, _ => self

mutual

/-- `impl Display for T` (typecheck.rs). -/
def displayT : T → String
  | .Integer8 => "i8"
  | .Integer16 => "i16"
  | .Integer32 => "i32"
  | .Integer64 => "i64"
  | .Integer128 => "i128"
  | .Boolean => "bool"
  | .Void => "void"
  | .String => "string"
  | .Infer => "inferred"
  | .ExternWildcard => "::extern-wc::"
  | .Array array_t is_stack_alloca _ element_count =>
      (if is_stack_alloca then "stack:" else "heap:") ++ "[" ++
        displayT array_t ++ " x " ++ toString element_count ++ "]"
  | .Function params return_type =>
      "fn(" ++ String.intercalate ", " (displayTParams params) ++ ") -> " ++
        displayT return_type
  | .Unknown => "unknown"

/-- The `params.iter().map(|t| t.1.to_string())` part of `Display for T`. -/
def displayTParams : List (Str × T) → List String
  | [] => []
  | (_, t) :: rest => displayT t :: displayTParams rest

end

/-- The AST (parser/nodetypes.rs, `enum Node`).  Each variant's struct
fields become constructor fields; `Box`/`Rc` indirections are dropped.
`ObjectLiteral.props` is a `HashMap<String, Node>` whose only modelled use
is `Display` iteration, kept as an association list; `Iterator.left` is a
`VelvetToken` of which only `literal_value` is ever read. -/
inductive Node where
  | BinaryExpr (id : Option Nat) (left : Node) (right : Node) (op : Str)
  | NumericLiteral (id : Option Nat) (literal_value : Nat)
  | VarDeclaration (id : Option Nat) (is_mutable : Bool) (var_identifier : Str)
      (var_type : T) (var_value : Node)
  | AssignmentExpr (id : Option Nat) (left : Node) (value : Node)
  | Comparator (id : Option Nat) (lhs : Node) (rhs : Node) (op : Str)
  | ListLiteral (id : Option Nat) (props : List Node)
  | ObjectLiteral (id : Option Nat) (props : List (Str × Node))
  | FunctionDefinition (id : Option Nat) (params : List (Str × T)) (name : Str)
      (body : List Node) (return_type : T)
  | Identifier (id : Option Nat) (identifier_name : Str)
  | Return (id : Option Nat) (return_statement : Node)
  | CallExpr (id : Option Nat) (args : List Node) (caller : Node)
  | MemberExpr (id : Option Nat) (object : Node) (property : Node) (is_computed : Bool)
  | Eof (id : Option Nat)
  | WhileStmt (id : Option Nat) (condition : Node) (body : List Node)
  | StringLiteral (id : Option Nat) (literal_value : Str)
  | IfStmt (id : Option Nat) (condition : Node) (body : List Node)
  | Iterator (id : Option Nat) (left : Str) (right : Node) (body : List Node)
  | MatchExpr (id : Option Nat) (target : Node) (arms : List (Node × Node))
  | BoolLiteral (id : Option Nat) (literal_value : Bool)
  | OptionalArg (id : Option Nat) (arg : Node)
  | NoOpNode (id : Option Nat)
  | NullishCoalescing (id : Option Nat) (left : Node) (right : Node)
  | Block (id : Option Nat) (body : List Node)
  | NullLiteral (id : Option Nat)
  | InterpreterBlock (id : Option Nat) (feature : Str) (body : List Node)
  | TypeCast (id : Option Nat) (left : Node) (target_type : T)
deriving Repr

/-- The id-extraction match at the end of `check_expr`
(typecheck.rs lines 756-783): every variant yields its `id` field. -/
def node_id : Node → Option Nat
  | .AssignmentExpr id _ _ => id
  | .BinaryExpr id _ _ _ => id
  | .Block id _ => id
  | .BoolLiteral id _ => id
  | .CallExpr id _ _ => id
  | .Comparator id _ _ _ => id
  | .Eof id => id
  | .FunctionDefinition id _ _ _ _ => id
  | .Identifier id _ => id
  | .IfStmt id _ _ => id
  | .InterpreterBlock id _ _ => id
  | .Iterator id _ _ _ => id
  | .ListLiteral id _ => id
  | .MatchExpr id _ _ => id
  | .MemberExpr id _ _ _ => id
  | .NoOpNode id => id
  | .NullLiteral id => id
  | .NullishCoalescing id _ _ => id
  | .NumericLiteral id _ => id
  | .ObjectLiteral id _ => id
  | .OptionalArg id _ => id
  | .Return id _ => id
  | .StringLiteral id _ => id
  | .TypeCast id _ _ => id
  | .VarDeclaration id _ _ _ _ => id
  | .WhileStmt id _ _ => id

mutual

/-- `impl Display for Node` (nodetypes.rs lines 226-307).  Literal braces
of the Rust format strings are written with hexadecimal escapes. -/
def displayNode : Node → String
  | .BinaryExpr _ left right op =>
      displayNode left ++ " " ++ op ++ " " ++ displayNode right
  | .NumericLiteral _ lv => toString lv
  | .StringLiteral _ s => "\"" ++ s ++ "\""
  | .BoolLiteral _ b => toString b
  | .NullLiteral _ => "null"
  | .Identifier _ name => name
  | .VarDeclaration _ is_mutable var_identifier var_type var_value =>
      (if is_mutable then "bindm" else "bind") ++ " " ++ var_identifier ++
        " as " ++ displayT var_type ++ " = " ++ displayNode var_value
  | .AssignmentExpr _ left value => displayNode left ++ " = " ++ displayNode value
  | .Comparator _ lhs rhs op => displayNode lhs ++ " " ++ op ++ " " ++ displayNode rhs
  | .ListLiteral _ props =>
      "[" ++ String.intercalate ", " (displayNodeList props) ++ "]"
  | .ObjectLiteral _ props =>
      "\x7b" ++ String.intercalate ", " (displayObjProps props) ++ "\x7d"
  | .FunctionDefinition _ params name _ return_type =>
      "-> " ++ name ++ "(" ++
        String.intercalate ", "
          (params.map (fun p => p.1 ++ ": " ++ displayT p.2)) ++
        ") => " ++ displayT return_type ++ " \x7b ... \x7d"
  | .Return _ return_statement => "return " ++ displayNode return_statement
  | .CallExpr _ args caller =>
      displayNode caller ++ "(" ++ String.intercalate ", " (displayNodeList args) ++ ")"
  | .MemberExpr _ object property is_computed =>
      if is_computed then
        displayNode object ++ "[" ++ displayNode property ++ "]"
      else
        displayNode object ++ "." ++ displayNode property
  | .IfStmt _ condition _ => "if " ++ displayNode condition ++ " \x7b ... \x7d"
  | .WhileStmt _ condition _ => "while " ++ displayNode condition ++ " do \x7b ... \x7d"
  | .MatchExpr _ target arms =>
      "match " ++ displayNode target ++ " \x7b " ++
        String.intercalate ", " (displayArms arms) ++ " \x7d"
  | .NullishCoalescing _ left right =>
      "(" ++ displayNode left ++ " ?? " ++ displayNode right ++ ")"
  | .Block _ body =>
      "\x7b " ++ String.intercalate "; " (displayNodeList body) ++ " \x7d"
  | .InterpreterBlock _ feature _ => "#feature(" ++ feature ++ ") \x7b ... \x7d"
  | .OptionalArg _ arg => displayNode arg ++ "?"
  | .NoOpNode _ => "<no-op>"
  | .Eof _ => "<eof>"
  | .Iterator _ left right _ =>
      "for " ++ left ++ " in " ++ displayNode right ++ " \x7b ... \x7d"
  | .TypeCast _ left target_type => displayNode left ++ "@" ++ displayT target_type

/-- `.iter().map(|n| n.to_string())` over a node list (Display helper). -/
def displayNodeList : List Node → List String
  | [] => []
  | n :: rest => displayNode n :: displayNodeList rest

/-- The match-arm rendering `"{} => ..."` of `Display for Node`. -/
def displayArms : List (Node × Node) → List String
  | [] => []
  | (pat, _) :: rest => (displayNode pat ++ " => ...") :: displayArms rest

/-- The object-literal rendering `"{}: {}"` of `Display for Node`. -/
def displayObjProps : List (Str × Node) → List String
  | [] => []
  | (k, v) :: rest => (k ++ ": " ++ displayNode v) :: displayObjProps rest

end

/-- Integer maxima used by `str::parse` and the literal-width ladder. -/
def i8_MAX : Nat := 2 ^ 7 - 1

def i16_MAX : Nat := 2 ^ 15 - 1

def i32_MAX : Nat := 2 ^ 31 - 1

def i64_MAX : Nat := 2 ^ 63 - 1

def i128_MAX : Nat := 2 ^ 127 - 1

def u64_MAX : Nat := 2 ^ 64 - 1

def usize_MAX : Nat := 2 ^ 64 - 1

/-- `literal.parse::<i128>()` on a decimal digit string of value `v`:
succeeds exactly when the value fits in `i128`. -/
def parse_i128 (v : Nat) : Option Nat :=
  if v ≤ i128_MAX then some v else none

/-- `literal.parse::<u64>()` on a decimal digit string of value `v`. -/
def parse_u64 (v : Nat) : Option Nat :=
  if v ≤ u64_MAX then some v else none

/-- `literal.parse::<usize>()` on a decimal digit string of value `v`
(64-bit target). -/
def parse_usize (v : Nat) : Option Nat :=
  if v ≤ usize_MAX then some v else none

/-- The mutable checker state (typecheck.rs, `struct TypeChecker`).
`externals_used` and `path_at` only feed the unmodelled file-system
loader `load_externs` and are omitted.  The innermost scope frame is the
head of `scopes`; the most recent `type_table` insert is the head. -/
structure TypeChecker where
  scopes : List (List (Str × T))
  errors : List Str
  type_table : List (Nat × T)
deriving Repr, DecidableEq

/-- `TypeChecker::type_error`: push a `TypeError` onto the batched list. -/
def TypeChecker.type_error (tc : TypeChecker) (message : Str) : TypeChecker :=
  { tc with errors := tc.errors ++ [message] }

/-- `TypeChecker::enter_scope`: push a fresh frame. -/
def TypeChecker.enter_scope (tc : TypeChecker) : TypeChecker :=
  { tc with scopes := [] :: tc.scopes }

/-- `TypeChecker::exit_scope`: pop the innermost frame
(`.expect("No scope to pop off")` panics on an empty stack). -/
def TypeChecker.exit_scope (tc : TypeChecker) : Option TypeChecker :=
  match tc.scopes with
  | [] => none
  | _ :: rest => some { tc with scopes := rest }

/-- `self.scopes.last_mut().unwrap().insert(name, ty)`: insert into the
innermost frame; panics when no frame exists. -/
def scope_insert (tc : TypeChecker) (name : Str) (ty : T) : Option TypeChecker :=
  match tc.scopes with
  | [] => none
  | frame :: rest => some { tc with scopes := ((name, ty) :: frame) :: rest }

/-- `HashMap::get` on one scope frame (first match wins, matching the
cons-based insert). -/
def frame_get : List (Str × T) → Str → Option T
  | [], _ => none
  | (k, v) :: rest, name => if k = name then some v else frame_get rest name

/-- The `for scope in self.scopes.iter().rev()` walk of
`lookup_variable_type` (innermost frame first in this model). -/
def lookup_scopes : List (List (Str × T)) → Str → Option T
  | [], _ => none
  | frame :: rest, n =>
    match frame_get frame n with
    | some ty => some ty
    | none => lookup_scopes rest n

/-- `TypeChecker::lookup_variable_type`: innermost frame first. -/
def TypeChecker.lookup_variable_type (tc : TypeChecker) (name : Str) : Option T :=
  lookup_scopes tc.scopes name

/-- `HashMap::get` on the type table keyed by node id. -/
def table_get : List (Nat × T) → Nat → Option T
  | [], _ => none
  | (k, v) :: rest, nid => if k = nid then some v else table_get rest nid

/-- `TypeChecker::types_match` (typecheck.rs lines 336-360). -/
def types_match (expected actual : T) : Bool :=
  match expected, actual with
  | .Array e_ty e_stack e_heap e_len, .Array a_ty a_stack a_heap a_len =>
      e_ty = a_ty ∧ e_stack = a_stack ∧ e_heap = a_heap ∧
        (e_len = 0 ∨ e_len = a_len)
  | e, a => e = a

/-- `TypeChecker::can_coerce` (typecheck.rs lines 362-383): one-way
integer widening, `Integer32` into `Infer` but not back, anything into
`ExternWildcard`, and otherwise plain equality. -/
def can_coerce (from_ to_ : T) : Bool :=
  match from_, to_ with
  | .Integer8, .Integer16 => true
  | .Integer8, .Integer32 => true
  | .Integer8, .Integer64 => true
  | .Integer8, .Integer128 => true
  | .Integer16, .Integer32 => true
  | .Integer16, .Integer64 => true
  | .Integer16, .Integer128 => true
  | .Integer32, .Integer64 => true
  | .Integer32, .Integer128 => true
  | .Integer64, .Integer128 => true
  | .Integer32, .Infer => true
  | .Infer, .Integer32 => false
  | _, .ExternWildcard => true
  | a, b => a = b

/-- `TypeChecker::enforce_equality` (typecheck.rs lines 385-395); the
mutated error list is returned alongside the result type. -/
def TypeChecker.enforce_equality (tc : TypeChecker) (given expected : T) :
    T × TypeChecker :=
  if given = expected ∨ can_coerce given expected then
    (expected, tc)
  else if can_coerce expected given then
    (T.Unknown, tc.type_error
      ("Cannot coerce " ++ displayT given ++ " to " ++ displayT expected))
  else
    (T.Unknown, tc.type_error
      ("Expected " ++ displayT expected ++ ", got " ++ displayT given))

/-- `TypeChecker::generate_fn_signature_string` (typecheck.rs lines
414-429); the ANSI colour codes added by `colored` are not modelled. -/
def generate_fn_signature_string (caller : Node) (f : T) : Str :=
  match f with
  | .Function params _ =>
      "->       signature: " ++ displayNode caller ++ "(" ++
        String.intercalate ", "
          (params.map (fun p => p.1 ++ " as " ++ displayT p.2)) ++ ")"
  | _ => "<?>(...)"

/-- The `matches!(ty, T::Integer8 | ... | T::Integer128)` hint guard of
the NumericLiteral arm (typecheck.rs lines 516-521). -/
def hint_is_integer : T → Bool
  | .Integer8 | .Integer16 | .Integer32 | .Integer64 | .Integer128 => true
  | _ => false

/-- The hint-free branch of the NumericLiteral arm (typecheck.rs lines
524-537): parse the literal as `i128` (panicking out of range) and pick
the width by the value ladder. -/
def numeric_literal_width (lv : Nat) : Option T :=
  match parse_i128 lv with
  | none => none
  | some val =>
      some (if i64_MAX < val then T.Integer128
        else if i32_MAX < val then T.Integer64
        else if i16_MAX < val then T.Integer32
        else if i8_MAX < val then T.Integer16
        else T.Integer32)

/-- Message of the non-uniform array-element error (line 465). -/
def msg_nonuniform (t_expected actual : T) (index : Nat) : Str :=
  "Array element types must be uniform; expected " ++ displayT t_expected ++
    ", got " ++ displayT actual ++ " at index " ++ toString index

/-- Message of the non-i32 array-index error (line 499). -/
def msg_index_not_i32 (index_ty : T) : Str :=
  "Array index must be i32, got " ++ displayT index_ty

/-- Message of the compile-time out-of-bounds error (line 505). -/
def msg_oob (element_count indexing_to : Nat) : Str :=
  "Stack-alloc array has " ++ toString element_count ++
    " elements; attempt to access element at index " ++ toString indexing_to ++
    " (out-of-bounds)"

/-- Message of the call-arity error (lines 549-555). -/
def msg_arity (caller : Node) (expected got : Nat) (f : T) : Str :=
  "call to fn `" ++ displayNode caller ++ "` expected " ++ toString expected ++
    " arguments, received " ++ toString got ++ "\n" ++
    generate_fn_signature_string caller f

/-- Message of the call-argument type-mismatch error (lines 568-575);
`argno` is the 1-based `index + 1` of the format call. -/
def msg_arg_mismatch (caller : Node) (argno : Nat) (expected got : T) (f : T) : Str :=
  "call to fn `" ++ displayNode caller ++ "` arg #" ++ toString argno ++
    " type mismatch: expected `" ++ displayT expected ++ "`, got `" ++
    displayT got ++ "`\n" ++ generate_fn_signature_string caller f

/-- Message of the wrong-return-type error (lines 617-620). -/
def msg_fn_return (name : Str) (val_ty expected : T) : Str :=
  "Function `" ++ name ++ "` returns `" ++ displayT val_ty ++ "`, expected `" ++
    displayT expected ++ "`"

/-- Message of the missing-return error (lines 628-631). -/
def msg_missing_return (name : Str) (return_type : T) : Str :=
  "Function `" ++ name ++ "` missing return of type `" ++
    displayT return_type ++ "`"

/-- Message of the declaration-assignment mismatch error (lines 659-662). -/
def msg_cannot_assign (expr_ty resolved_ty : T) : Str :=
  "Cannot assign value of type `" ++ displayT expr_ty ++
    "` to variable of type `" ++ displayT resolved_ty ++ "`"

/-- Message of the invalid-cast error (line 684). -/
def msg_cannot_cast (from_ to_ : T) : Str :=
  "Cannot cast from " ++ displayT from_ ++ " to " ++ displayT to_

/-- Message of the binary-operand mismatch error (lines 694-697). -/
def msg_binop (op : Str) (lhs_ty rhs_ty : T) : Str :=
  "Cannot use `" ++ op ++ "` operation on " ++ displayT lhs_ty ++ " and " ++
    displayT rhs_ty ++ "."

/-- The signature of one recursion level of `check_expr` (state in, node
and hint in, resolved type and state out; `none` models a panic). -/
abbrev CheckFn := TypeChecker → Node → Option T → Option (T × TypeChecker)

/-- The element loop of the ListLiteral arm (lines 459-473): each element
is checked against the inferred element type, which is seeded by the
first element. -/
def list_literal_loop (check : CheckFn) :
    TypeChecker → List Node → Option T → Nat → Option (Option T × TypeChecker)
  | tc, [], inferred_elem_ty, _ => some (inferred_elem_ty, tc)
  | tc, expr :: rest, inferred_elem_ty, index =>
    match check tc expr inferred_elem_ty with
    | none => none
    | some (actual, tc1) =>
      match inferred_elem_ty with
      | some t_expected =>
          let tc2 := if can_coerce actual t_expected then tc1
            else tc1.type_error (msg_nonuniform t_expected actual index)
          list_literal_loop check tc2 rest inferred_elem_ty (index + 1)
      | none => list_literal_loop check tc1 rest (some actual) (index + 1)

/-- The argument loop of the CallExpr arm for a `Function` callee (lines
559-577): each argument is checked against its parameter type and
mismatches are reported individually. -/
def call_args_loop (check : CheckFn) (caller : Node) (f_clone : T) :
    TypeChecker → List (Node × (Str × T)) → Nat → Option TypeChecker
  | tc, [], _ => some tc
  | tc, (arg_expr, expected_ty) :: rest, index =>
    match check tc arg_expr (some expected_ty.2) with
    | none => none
    | some (arg_ty, tc1) =>
      let tc2 :=
        if ¬ types_match expected_ty.2 arg_ty ∧ ¬ can_coerce arg_ty expected_ty.2
        then tc1.type_error
          (msg_arg_mismatch caller (index + 1) expected_ty.2 arg_ty f_clone)
        else tc1
      call_args_loop check caller f_clone tc2 rest (index + 1)

/-- The argument loop of the CallExpr arm for a non-`Function` callee
(lines 589-592): arguments are checked with no hint, for their own
errors only. -/
def bare_args_loop (check : CheckFn) : TypeChecker → List Node → Option TypeChecker
  | tc, [] => some tc
  | tc, arg_expr :: rest =>
    match check tc arg_expr none with
    | none => none
    | some (_, tc1) => bare_args_loop check tc1 rest

/-- The body loop of the FunctionDefinition arm (lines 610-625): a
top-level `Return` statement has its inner expression checked against the
declared return type and sets `saw_return`; anything else is checked with
no hint. -/
def fn_body_loop (check : CheckFn) (fname : Str) (return_type : T) :
    TypeChecker → List Node → Bool → Option (Bool × TypeChecker)
  | tc, [], saw_return => some (saw_return, tc)
  | tc, stmt :: rest, saw_return =>
    match stmt with
    | .Return _ return_statement =>
      match check tc return_statement (some return_type) with
      | none => none
      | some (val_ty, tc1) =>
        let tc2 := if val_ty = return_type then tc1
          else tc1.type_error (msg_fn_return fname val_ty return_type)
        fn_body_loop check fname return_type tc2 rest true
    | other =>
      match check tc other none with
      | none => none
      | some (_, tc1) => fn_body_loop check fname return_type tc1 rest saw_return

/-- The statement loop shared by the Block, WhileStmt and IfStmt arms
(lines 714-718, 722-726, 735-737): each statement is checked with no
hint; the last resolved type is carried (and discarded by IfStmt). -/
def stmts_loop (check : CheckFn) : TypeChecker → List Node → T → Option (T × TypeChecker)
  | tc, [], last_val => some (last_val, tc)
  | tc, sub_node :: rest, last_val =>
    match check tc sub_node none with
    | none => none
    | some (v, tc1) =>
      have _ := last_val
      stmts_loop check tc1 rest v

/-- The arm loop of the MatchExpr arm (lines 746-749): each pattern is
checked against the target type, each right side with no hint; the last
right side's type is carried. -/
def match_arms_loop (check : CheckFn) (target : T) :
    TypeChecker → List (Node × Node) → T → Option (T × TypeChecker)
  | tc, [], last_right => some (last_right, tc)
  | tc, (arm0, arm1) :: rest, last_right =>
    match check tc arm0 (some target) with
    | none => none
    | some (_, tc1) =>
      match check tc1 arm1 none with
      | none => none
      | some (r, tc2) =>
        have _ := last_right
        match_arms_loop check target tc2 rest r

/-- The parameter-binding loop of the FunctionDefinition arm (lines
602-608). -/
def bind_params : TypeChecker → List (Str × T) → Option TypeChecker
  | tc, [] => some tc
  | tc, (pname, pty) :: rest =>
    match scope_insert tc pname pty with
    | none => none
    | some tc1 => bind_params tc1 rest

/-- The common tail of `check_expr` (lines 756-791): unwrap the node id
(panicking on `None`) and insert the resolved type into the type table
before returning it. -/
def write_node_type (node : Node) (ty : T) (tc : TypeChecker) :
    Option (T × TypeChecker) :=
  match node_id node with
  | none => none
  | some nid => some (ty, { tc with type_table := (nid, ty) :: tc.type_table })

/-- `TypeChecker::check_expr` (typecheck.rs lines 438-792), with an
explicit fuel parameter driving the recursion; every recursive call of
the Rust code runs at one fuel less.  The only path that skips the final
type-table write is the call-arity-mismatch `return T::Unknown` (line
556). -/
def check_expr : Nat → TypeChecker → Node → Option T → Option (T × TypeChecker)
  | 0, _, _, _ => none
  | fuel + 1, tc, node, expected =>
    match node with
    | .BoolLiteral _ _ => write_node_type node T.Boolean tc
    | .StringLiteral _ _ => write_node_type node T.String tc
    | .ListLiteral _ props =>
      match list_literal_loop (check_expr fuel) tc props none 0 with
      | none => none
      | some (inferred_elem_ty, tc1) =>
        let end_type_array :=
          match inferred_elem_ty with
          | some t => T.Array t true 0 props.length
          | none => T.Array T.Unknown true 0 props.length
        write_node_type node end_type_array tc1
    | .MemberExpr _ object property _ =>
      match check_expr fuel tc object none with
      | none => none
      | some (parent_type, tc1) =>
        match parent_type with
        | .Array array_t is_stack_alloca _ element_count =>
          match check_expr fuel tc1 property (some T.Integer32) with
          | none => none
          | some (index_ty, tc2) =>
            let tc3 := if index_ty = T.Integer32 then tc2
              else tc2.type_error (msg_index_not_i32 index_ty)
            match property with
            | .NumericLiteral _ lv =>
              if is_stack_alloca ∧ 0 < element_count then
                match parse_usize lv with
                | none => none
                | some indexing_to =>
                  let tc4 := if element_count < indexing_to + 1
                    then tc3.type_error (msg_oob element_count indexing_to)
                    else tc3
                  write_node_type node array_t tc4
              else write_node_type node array_t tc3
            | _ => write_node_type node array_t tc3
        | _ => write_node_type node T.Unknown tc1
    | .NumericLiteral _ lv =>
      match expected with
      | some ty =>
        if hint_is_integer ty then write_node_type node ty tc
        else
          match numeric_literal_width lv with
          | none => none
          | some t => write_node_type node t tc
      | none =>
        match numeric_literal_width lv with
        | none => none
        | some t => write_node_type node t tc
    | .CallExpr _ args caller =>
      match check_expr fuel tc caller none with
      | none => none
      | some (callee_ty, tc1) =>
        match callee_ty with
        | .Function params return_type =>
          if params.length ≠ args.length then
            some (T.Unknown, tc1.type_error
              (msg_arity caller params.length args.length
                (T.Function params return_type)))
          else
            match call_args_loop (check_expr fuel) caller
                (T.Function params return_type) tc1 (args.zip params) 0 with
            | none => none
            | some tc2 => write_node_type node return_type tc2
        | _ =>
          match bare_args_loop (check_expr fuel) tc1 args with
          | none => none
          | some tc2 => write_node_type node T.Infer tc2
    | .FunctionDefinition _ params name body return_type =>
      match bind_params tc.enter_scope params with
      | none => none
      | some tcP =>
        match fn_body_loop (check_expr fuel) name return_type tcP body false with
        | none => none
        | some (saw_return, tcB) =>
          let tcM := if return_type ≠ T.Unknown ∧ saw_return = false
            then tcB.type_error (msg_missing_return name return_type)
            else tcB
          match tcM.exit_scope with
          | none => none
          | some tcE =>
            match scope_insert tcE name (T.Function params return_type) with
            | none => none
            | some tcI => write_node_type node (T.Function params return_type) tcI
    | .VarDeclaration _ _ var_identifier var_type var_value =>
      match check_expr fuel tc var_value (some var_type) with
      | none => none
      | some (expr_ty, tc1) =>
        let resolved_ty := T.resolve_with_hint var_type expr_ty
        if types_match resolved_ty expr_ty then
          match scope_insert tc1 var_identifier resolved_ty with
          | none => none
          | some tc2 => write_node_type node resolved_ty tc2
        else if can_coerce expr_ty resolved_ty then
          match scope_insert tc1 var_identifier resolved_ty with
          | none => none
          | some tc2 => write_node_type node resolved_ty tc2
        else
          write_node_type node T.Unknown
            (tc1.type_error (msg_cannot_assign expr_ty resolved_ty))
    | .TypeCast _ left target_type =>
      match check_expr fuel tc left none with
      | none => none
      | some (left_val, tc1) =>
        let tc2 := if can_coerce left_val target_type then tc1
          else tc1.type_error (msg_cannot_cast left_val target_type)
        write_node_type node target_type tc2
    | .BinaryExpr _ left right op =>
      match check_expr fuel tc left none with
      | none => none
      | some (lhs_ty, tc1) =>
        match check_expr fuel tc1 right (some lhs_ty) with
        | none => none
        | some (rhs_ty, tc2) =>
          if lhs_ty = rhs_ty then write_node_type node lhs_ty tc2
          else write_node_type node T.Unknown
            (tc2.type_error (msg_binop op lhs_ty rhs_ty))
    | .AssignmentExpr _ left value =>
      match check_expr fuel tc left none with
      | none => none
      | some (left_ty, tc1) =>
        match check_expr fuel tc1 value (some left_ty) with
        | none => none
        | some (val_ty, tc2) =>
          let res := tc2.enforce_equality val_ty left_ty
          write_node_type node res.1 res.2
    | .Identifier _ identifier_name =>
      match tc.lookup_variable_type identifier_name with
      | some t => write_node_type node t tc
      | none => write_node_type node T.Unknown tc
    | .Block _ body =>
      match stmts_loop (check_expr fuel) tc body T.Unknown with
      | none => none
      | some (last_val, tc1) => write_node_type node last_val tc1
    | .WhileStmt _ condition body =>
      match check_expr fuel tc condition none with
      | none => none
      | some (_, tc1) =>
        match stmts_loop (check_expr fuel) tc1 body T.Unknown with
        | none => none
        | some (last_val, tc2) => write_node_type node last_val tc2
    | .Comparator _ lhs rhs _ =>
      match check_expr fuel tc lhs none with
      | none => none
      | some (l, tc1) =>
        match check_expr fuel tc1 rhs (some l) with
        | none => none
        | some (_, tc2) => write_node_type node l tc2
    | .IfStmt _ condition body =>
      match check_expr fuel tc condition none with
      | none => none
      | some (_, tc1) =>
        match stmts_loop (check_expr fuel) tc1 body T.Unknown with
        | none => none
        | some (_, tc2) => write_node_type node T.Unknown tc2
    | .Return _ return_statement =>
      match check_expr fuel tc return_statement none with
      | none => none
      | some (t, tc1) => write_node_type node t tc1
    | .MatchExpr _ target arms =>
      match check_expr fuel tc target none with
      | none => none
      | some (target_ty, tc1) =>
        match arms with
        | [] => none
        | first :: _ =>
          match check_expr fuel tc1 first.1 expected with
          | none => none
          | some (_, tc2) =>
            match match_arms_loop (check_expr fuel) target_ty tc2 arms T.Unknown with
            | none => none
            | some (last_right, tc3) => write_node_type node last_right tc3
    | .NullishCoalescing _ left _ =>
      match check_expr fuel tc left none with
      | none => none
      | some (t, tc1) => write_node_type node t tc1
    | .NoOpNode _ => write_node_type node T.Unknown tc
    | .Eof _ => none
    | .InterpreterBlock _ _ _ => none
    | .Iterator _ _ _ _ => none
    | .NullLiteral _ => none
    | .ObjectLiteral _ _ => none
    | .OptionalArg _ _ => none

/-! ## Code generator (codegen.rs)

Only the diagnostics discipline and the numeric-literal lowering are in
scope for the claims.  LLVM builder state (module, blocks, instruction
emission) has no observable role in them and is not modelled; what is
kept of a lowered literal is the concrete integer type and the parsed
value passed to `const_int`. -/

/-- The two batched diagnostics accumulators of `IRGenerator`
(`error_stack`, `warning_stack`), both initially empty. -/
structure GenDiag where
  error_stack : List Str
  warning_stack : List Str
deriving Repr, DecidableEq

/-- `IRGenerator::compiler_error` (codegen.rs lines 174-181): push the
message; when `exit_immediately` is set, unwind both stacks and call
`process::exit(1)` — modelled as `none`. -/
def compiler_error (g : GenDiag) (message : Str) (exit_immediately : Bool) :
    Option GenDiag :=
  let g1 := { g with error_stack := g.error_stack ++ [message] }
  if exit_immediately then none else some g1

/-- `IRGenerator::compiler_warning` (codegen.rs lines 183-185). -/
def compiler_warning (g : GenDiag) (message : Str) : GenDiag :=
  { g with warning_stack := g.warning_stack ++ [message] }

/-- The fragment of inkwell's `BasicTypeEnum` reachable from
`t_to_llvm_type`: integer types of a given bit width, and pointers. -/
inductive BasicTypeEnum where
  | IntType (width : Nat)
  | PtrType
deriving Repr, DecidableEq

/-- `IRGenerator::t_to_llvm_type` (codegen.rs lines 446-473).  `Infer`
raises `compiler_error(..., true)` followed by `panic!()` — both model
as `none`; any other unmapped type pushes a batched error and falls back
to `i32`. -/
def t_to_llvm_type (g : GenDiag) : T → Option (BasicTypeEnum × GenDiag)
  | .Integer8 => some (.IntType 8, g)
  | .Integer16 => some (.IntType 16, g)
  | .Integer32 => some (.IntType 32, g)
  | .Integer64 => some (.IntType 64, g)
  | .Integer128 => some (.IntType 128, g)
  | .Boolean => some (.IntType 1, g)
  | .String => some (.PtrType, g)
  | .Array _ _ _ _ => some (.PtrType, g)
  | .Infer => none
  | t =>
    match compiler_error g
        ("Failed to map T `" ++ displayT t ++ "` to a valid type") false with
    | none => none
    | some g1 => some (.IntType 32, g1)

/-- An integer constant as produced by `const_int` on an inkwell int
type: the bit width and the `u64` value. -/
structure IRIntConst where
  width : Nat
  value : Nat
deriving Repr, DecidableEq

/-- The `Node::NumericLiteral` arm of `IRGenerator::generate_ir_for_expr`
(codegen.rs lines 608-619): unwrap the node id, look its type up in the
type table (a missing entry panics), parse the literal text as `u64`
(out of range panics), map the type to an LLVM type and build the
constant (`into_int_type` panics on a non-integer type). -/
def generate_ir_numeric_literal (type_table : List (Nat × T)) (g : GenDiag)
    (n_id : Option Nat) (literal_value : Nat) : Option (IRIntConst × GenDiag) :=
  match n_id with
  | none => none
  | some nid =>
    match table_get type_table nid with
    | none => none
    | some inferred_ty =>
      match parse_u64 literal_value with
      | none => none
      | some parsed_val =>
        match t_to_llvm_type g inferred_ty with
        | none => none
        | some (base_type, g1) =>
          match base_type with
          | .IntType w => some (⟨w, parsed_val⟩, g1)
          | _ => none

/-- The per-node loop of `generate_ir_for_nodes` (codegen.rs lines
558-560), with the effect of `generate_ir_for_expr` on the diagnostics
state abstracted as `step` (a `none` step is an immediate unwind or
panic inside expression lowering). -/
def run_nodes (step : GenDiag → Node → Option GenDiag) :
    GenDiag → List Node → Option GenDiag
  | g, [] => some g
  | g, node :: rest =>
    match step g node with
    | none => none
    | some g1 => run_nodes step g1 rest

/-- The diagnostics skeleton of `IRGenerator::generate_ir_for_nodes`
(codegen.rs lines 477-598): run every node, then (after the
warning-stack unwind, which only prints) return `false` when the error
stack is non-empty and `true` otherwise.  Global/foreign-symbol setup
and the final return-value construction touch no error state; everything
that can push a `CodeGenError` during generation happens inside `step`. -/
def generate_ir_for_nodes (step : GenDiag → Node → Option GenDiag)
    (g : GenDiag) (nodes : List Node) : Option (GenDiag × Bool) :=
  match run_nodes step g nodes with
  | none => none
  | some g1 =>
    if g1.error_stack.isEmpty then some (g1, true) else some (g1, false)

/-! ## Projections used by the concrete (counter)example statements -/

/-- The resolved type of a `check_expr` outcome. -/
def result_type : Option (T × TypeChecker) → Option T
  | none => none
  | some (ty, _) => some ty

/-- The batched error list of a `check_expr` outcome. -/
def result_errors : Option (T × TypeChecker) → Option (List Str)
  | none => none
  | some (_, tc) => some tc.errors

/-- The type-table entry for a node id in a `check_expr` outcome. -/
def result_table_entry : Option (T × TypeChecker) → Nat → Option (Option T)
  | none, _ => none
  | some (_, tc), nid => some (table_get tc.type_table nid)

/-! ## Claim theorems -/

/-- The integer type of a given bit width (vocabulary of the coercion
claims). -/
def int_of_width : Nat → T
  | 8 => T.Integer8
  | 16 => T.Integer16
  | 32 => T.Integer32
  | 64 => T.Integer64
  | 128 => T.Integer128
  | _ => T.Unknown

/-- C3: integer coercion is one-directional widening across the widths
8, 16, 32, 64, 128, and every type coerces into `ExternWildcard`. -/
theorem coercion_lattice_one_directional :
    (∀ w1 ∈ [8, 16, 32, 64, 128], ∀ w2 ∈ [8, 16, 32, 64, 128], w1 < w2 →
      can_coerce (int_of_width w1) (int_of_width w2) = true ∧
      can_coerce (int_of_width w2) (int_of_width w1) = false) ∧
    (∀ t : T, can_coerce t T.ExternWildcard = true) := by
  constructor
  · decide
  · intro t
    cases t <;> rfl

/-- Witness for C3 at widths 8 and 64 and at `t = Integer64`. -/
theorem coercion_lattice_one_directional_witness :
    (can_coerce T.Integer8 T.Integer64 = true ∧
      can_coerce T.Integer64 T.Integer8 = false) ∧
    can_coerce T.Integer64 T.ExternWildcard = true :=
  ⟨coercion_lattice_one_directional.1 8 (by decide) 64 (by decide) (by decide),
    coercion_lattice_one_directional.2 T.Integer64⟩

/-- Stated from the spec's words for comparison with the code: the
claimed literal width ladder. -/
def spec_literal_ladder (v : Nat) : T :=
  if i64_MAX < v then T.Integer128
  else if i32_MAX < v then T.Integer64
  else if i16_MAX < v then T.Integer32
  else if i8_MAX < v then T.Integer16
  else T.Integer32

/-- C2: with no hint or a non-integer hint, a numeric literal gets the
width-ladder type (and the ladder is exactly the claimed one); with an
integer hint the hint wins outright. -/
theorem numeric_literal_ladder (fuel : Nat) (tc : TypeChecker) (nid v : Nat)
    (t : T) (hv : v ≤ i128_MAX) :
    (check_expr (fuel + 1) tc (.NumericLiteral (some nid) v) none =
      some (spec_literal_ladder v,
        { tc with type_table := (nid, spec_literal_ladder v) :: tc.type_table })) ∧
    (hint_is_integer t = false →
      check_expr (fuel + 1) tc (.NumericLiteral (some nid) v) (some t) =
      some (spec_literal_ladder v,
        { tc with type_table := (nid, spec_literal_ladder v) :: tc.type_table })) ∧
    (hint_is_integer t = true →
      check_expr (fuel + 1) tc (.NumericLiteral (some nid) v) (some t) =
      some (t, { tc with type_table := (nid, t) :: tc.type_table })) := by
  refine ⟨?_, fun ht => ?_, fun ht => ?_⟩
  · simp [check_expr, numeric_literal_width, parse_i128, hv,
      spec_literal_ladder, write_node_type, node_id]
  · simp [check_expr, ht, numeric_literal_width, parse_i128, hv,
      spec_literal_ladder, write_node_type, node_id]
  · simp [check_expr, ht, write_node_type, node_id]

/-- Witness for C2: `5 → Integer32`, `99999999999 → Integer64`,
`9223372036854775808 → Integer128`, and an `Integer128` hint wins. -/
theorem numeric_literal_ladder_witness :
    (check_expr 1 ⟨[], [], []⟩ (.NumericLiteral (some 0) 5) none =
      some (spec_literal_ladder 5, ⟨[], [], [(0, spec_literal_ladder 5)]⟩)) ∧
    spec_literal_ladder 5 = T.Integer32 ∧
    (check_expr 1 ⟨[], [], []⟩ (.NumericLiteral (some 0) 99999999999) none =
      some (spec_literal_ladder 99999999999,
        ⟨[], [], [(0, spec_literal_ladder 99999999999)]⟩)) ∧
    spec_literal_ladder 99999999999 = T.Integer64 ∧
    (check_expr 1 ⟨[], [], []⟩
        (.NumericLiteral (some 0) 9223372036854775808) none =
      some (spec_literal_ladder 9223372036854775808,
        ⟨[], [], [(0, spec_literal_ladder 9223372036854775808)]⟩)) ∧
    spec_literal_ladder 9223372036854775808 = T.Integer128 ∧
    (check_expr 1 ⟨[], [], []⟩ (.NumericLiteral (some 0) 5) (some T.Integer128) =
      some (T.Integer128, ⟨[], [], [(0, T.Integer128)]⟩)) :=
  ⟨(numeric_literal_ladder 0 ⟨[], [], []⟩ 0 5 T.Boolean (by decide)).1,
    by decide,
    (numeric_literal_ladder 0 ⟨[], [], []⟩ 0 99999999999 T.Boolean (by decide)).1,
    by decide,
    (numeric_literal_ladder 0 ⟨[], [], []⟩ 0 9223372036854775808 T.Boolean
      (by decide)).1,
    by decide,
    (numeric_literal_ladder 0 ⟨[], [], []⟩ 0 5 T.Integer128 (by decide)).2.2
      (by decide)⟩

/-- C9: the generator's entry point never reports success while the
batched error stack is non-empty — the returned flag is `true` exactly
when the final error stack is empty. -/
theorem generate_success_iff_no_errors (step : GenDiag → Node → Option GenDiag)
    (g0 : GenDiag) (nodes : List Node) (g : GenDiag) (success : Bool)
    (h : generate_ir_for_nodes step g0 nodes = some (g, success)) :
    success = true ↔ g.error_stack = [] := by
  unfold generate_ir_for_nodes at h
  split at h
  · simp at h
  · split at h <;> simp_all [List.isEmpty_iff]

/-- A `generate_ir_for_expr` effect that records nothing (witness step). -/
def id_step : GenDiag → Node → Option GenDiag :=
  fun g _ => some g

/-- A `generate_ir_for_expr` effect that records one batched error
(witness step). -/
def err_step : GenDiag → Node → Option GenDiag :=
  fun g _ => some { g with error_stack := g.error_stack ++ ["e"] }

/-- Witness for C9 on a clean run and on a run with one recorded error. -/
theorem generate_success_iff_no_errors_witness :
    (generate_ir_for_nodes id_step ⟨[], []⟩ [.NoOpNode (some 0)] =
      some (⟨[], []⟩, true)) ∧
    (true = true ↔ (⟨[], []⟩ : GenDiag).error_stack = []) ∧
    (generate_ir_for_nodes err_step ⟨[], []⟩ [.NoOpNode (some 0)] =
      some (⟨["e"], []⟩, false)) ∧
    (false = true ↔ (⟨["e"], []⟩ : GenDiag).error_stack = []) :=
  ⟨rfl,
    generate_success_iff_no_errors id_step ⟨[], []⟩ [.NoOpNode (some 0)] _ _ rfl,
    rfl,
    generate_success_iff_no_errors err_step ⟨[], []⟩ [.NoOpNode (some 0)] _ _ rfl⟩

/-- C10: the two passes parse numeric literals at different widths.  For
`u64::MAX < v ≤ i128::MAX` the checker (no hint) succeeds with
`Integer128` while literal lowering panics on the `u64` parse; lowering
only succeeds for `v ≤ u64::MAX`; and a literal beyond `i128::MAX`
panics in the checker. -/
theorem literal_width_mismatch (fuel : Nat) (tc : TypeChecker)
    (tt : List (Nat × T)) (g : GenDiag) (nid v : Nat) :
    (u64_MAX < v → v ≤ i128_MAX →
      check_expr (fuel + 1) tc (.NumericLiteral (some nid) v) none =
        some (T.Integer128,
          { tc with type_table := (nid, T.Integer128) :: tc.type_table }) ∧
      generate_ir_numeric_literal tt g (some nid) v = none) ∧
    (∀ r, generate_ir_numeric_literal tt g (some nid) v = some r →
      v ≤ u64_MAX) ∧
    (i128_MAX < v →
      check_expr (fuel + 1) tc (.NumericLiteral (some nid) v) none = none) := by
  refine ⟨fun h1 h2 => ⟨?_, ?_⟩, fun r hr => ?_, fun h => ?_⟩
  · have hgt : i64_MAX < v := by
      have : i64_MAX < u64_MAX := by norm_num [i64_MAX, u64_MAX]
      omega
    simp [check_expr, numeric_literal_width, parse_i128, h2, hgt,
      write_node_type, node_id]
  · have hnot : ¬ v ≤ u64_MAX := by omega
    rcases htt : table_get tt nid with _ | ty <;>
      simp [generate_ir_numeric_literal, htt, parse_u64, hnot]
  · by_contra hv
    push_neg at hv
    have hnot : ¬ v ≤ u64_MAX := by omega
    rcases htt : table_get tt nid with _ | ty <;>
      simp [generate_ir_numeric_literal, htt, parse_u64, hnot] at hr
  · have hnot : ¬ v ≤ i128_MAX := by omega
    simp [check_expr, numeric_literal_width, parse_i128, hnot]

/-- Witness for C10 at `v = 2^64` (between the parse widths) and
`v = 2^127` (beyond both). -/
theorem literal_width_mismatch_witness :
    (check_expr 1 ⟨[], [], []⟩ (.NumericLiteral (some 0) 18446744073709551616)
        none =
      some (T.Integer128, ⟨[], [], [(0, T.Integer128)]⟩)) ∧
    (generate_ir_numeric_literal [(0, T.Integer128)] ⟨[], []⟩ (some 0)
        18446744073709551616 = none) ∧
    (check_expr 1 ⟨[], [], []⟩
        (.NumericLiteral (some 0) 170141183460469231731687303715884105728)
        none = none) :=
  ⟨((literal_width_mismatch 0 ⟨[], [], []⟩ [(0, T.Integer128)] ⟨[], []⟩ 0
      18446744073709551616).1 (by decide) (by decide)).1,
    ((literal_width_mismatch 0 ⟨[], [], []⟩ [(0, T.Integer128)] ⟨[], []⟩ 0
      18446744073709551616).1 (by decide) (by decide)).2,
    (literal_width_mismatch 0 ⟨[], [], []⟩ [] ⟨[], []⟩ 0
      170141183460469231731687303715884105728).2.2 (by decide)⟩

/-- `type_error` only appends the message to the batched list. -/
theorem type_error_errors (tc : TypeChecker) (msg : Str) :
    (tc.type_error msg).errors = tc.errors ++ [msg] := rfl

/-- C5 counterexample: the cast of an `i64` literal to `i8` lies outside
`can_coerce(i64, i8)` and records a hard error even though the reverse
direction `can_coerce(i8, i64)` holds, refuting acceptance of
either-direction casts; the resolved type is still the target. -/
theorem narrowing_cast_rejected :
    result_type (check_expr 2 ⟨[], [], []⟩
      (.TypeCast (some 2) (.NumericLiteral (some 1) 3000000000) T.Integer8)
      none) = some T.Integer8 ∧
    result_errors (check_expr 2 ⟨[], [], []⟩
      (.TypeCast (some 2) (.NumericLiteral (some 1) 3000000000) T.Integer8)
      none) = some ["Cannot cast from i64 to i8"] ∧
    can_coerce T.Integer8 T.Integer64 = true := by
  refine ⟨rfl, ?_, rfl⟩
  rfl

/-- C5 (amended): a type cast records an error exactly when the one-way
coercion `can_coerce(source, target)` fails — the reverse direction is
not consulted — and the cast's resolved type is always the target. -/
theorem cast_accepts_only_forward_coercion (fuel : Nat) (tc : TypeChecker)
    (id : Option Nat) (left : Node) (target_type : T) (expected : Option T)
    (ty : T) (tc' : TypeChecker)
    (h : check_expr (fuel + 1) tc (.TypeCast id left target_type) expected =
      some (ty, tc')) :
    ty = target_type ∧
    ∃ left_val tc1, check_expr fuel tc left none = some (left_val, tc1) ∧
      tc'.errors = tc1.errors ++
        (if can_coerce left_val target_type then []
          else [msg_cannot_cast left_val target_type]) := by
  simp only [check_expr] at h
  rcases hc : check_expr fuel tc left none with _ | ⟨left_val, tc1⟩
  · rw [hc] at h
    exact absurd h (by simp)
  · rw [hc] at h
    simp only [write_node_type, node_id] at h
    rcases id with _ | nid
    · simp at h
    · simp only [Option.some.injEq, Prod.mk.injEq] at h
      obtain ⟨hty, hst⟩ := h
      subst hty
      refine ⟨rfl, left_val, tc1, rfl, ?_⟩
      rw [← hst]
      split
      · simp
      · simp [type_error_errors]

/-- Witness for C5 (amended) on an accepted widening cast `i32 @ i64`. -/
theorem cast_accepts_only_forward_coercion_witness :
    T.Integer64 = T.Integer64 ∧
    ∃ left_val tc1,
      check_expr 1 ⟨[], [], []⟩ (.NumericLiteral (some 1) 7) none =
        some (left_val, tc1) ∧
      (⟨[], [], [(2, T.Integer64), (1, T.Integer32)]⟩ : TypeChecker).errors =
        tc1.errors ++
          (if can_coerce left_val T.Integer64 then []
            else [msg_cannot_cast left_val T.Integer64]) :=
  cast_accepts_only_forward_coercion 1 ⟨[], [], []⟩ (some 2)
    (.NumericLiteral (some 1) 7) T.Integer64 none T.Integer64
    ⟨[], [], [(2, T.Integer64), (1, T.Integer32)]⟩ rfl

/-- C6 counterexample: `true + "a"` resolves the left operand to `bool`
but the expression to `Unknown`, refuting the unconditional
"result type equals the left operand's type". -/
theorem binary_mismatch_result_not_left :
    result_type (check_expr 1 ⟨[], [], []⟩ (.BoolLiteral (some 1) true) none) =
      some T.Boolean ∧
    result_type (check_expr 2 ⟨[], [], []⟩
      (.BinaryExpr (some 3) (.BoolLiteral (some 1) true)
        (.StringLiteral (some 2) "a") "+") none) = some T.Unknown ∧
    result_errors (check_expr 2 ⟨[], [], []⟩
      (.BinaryExpr (some 3) (.BoolLiteral (some 1) true)
        (.StringLiteral (some 2) "a") "+") none) =
      some ["Cannot use `+` operation on bool and string."] ∧
    T.Unknown ≠ T.Boolean := by
  refine ⟨rfl, rfl, ?_, by decide⟩
  rfl

/-- C6 (amended): a binary expression checks the left operand with no
hint and the right operand with the left's resolved type as hint; when
the two resolved types agree the result is the left type with no new
error, and when they differ exactly one operand-mismatch error is
recorded and the result is `Unknown`. -/
theorem binary_left_hint_mismatch_unknown (fuel : Nat) (tc : TypeChecker)
    (id : Option Nat) (left right : Node) (op : Str) (expected : Option T)
    (ty : T) (tc' : TypeChecker)
    (h : check_expr (fuel + 1) tc (.BinaryExpr id left right op) expected =
      some (ty, tc')) :
    ∃ lhs_ty tc1 rhs_ty tc2,
      check_expr fuel tc left none = some (lhs_ty, tc1) ∧
      check_expr fuel tc1 right (some lhs_ty) = some (rhs_ty, tc2) ∧
      ((lhs_ty = rhs_ty ∧ ty = lhs_ty ∧ tc'.errors = tc2.errors) ∨
        (lhs_ty ≠ rhs_ty ∧ ty = T.Unknown ∧
          tc'.errors = tc2.errors ++ [msg_binop op lhs_ty rhs_ty])) := by
  simp only [check_expr] at h
  split at h
  · exact absurd h (by simp)
  rename_i lhs_ty tc1 hc
  split at h
  · exact absurd h (by simp)
  rename_i rhs_ty tc2 hr
  refine ⟨lhs_ty, tc1, rhs_ty, tc2, hc, hr, ?_⟩
  simp only [write_node_type, node_id] at h
  rcases id with _ | nid
  · split at h <;> simp at h
  · split at h <;>
      simp only [Option.some.injEq, Prod.mk.injEq] at h <;>
      obtain ⟨hty, hst⟩ := h
    · rename_i heq
      exact Or.inl ⟨heq, hty.symm, by rw [← hst]⟩
    · rename_i hne
      exact Or.inr ⟨hne, hty.symm, by rw [← hst]; simp [type_error_errors]⟩

/-- Witness for C6 (amended) on `1 + 2` (both `Integer32`). -/
theorem binary_left_hint_mismatch_unknown_witness :
    ∃ lhs_ty tc1 rhs_ty tc2,
      check_expr 1 ⟨[], [], []⟩ (.NumericLiteral (some 1) 1) none =
        some (lhs_ty, tc1) ∧
      check_expr 1 tc1 (.NumericLiteral (some 2) 2) (some lhs_ty) =
        some (rhs_ty, tc2) ∧
      ((lhs_ty = rhs_ty ∧ T.Integer32 = lhs_ty ∧
          (⟨[], [], [(3, T.Integer32), (2, T.Integer32),
            (1, T.Integer32)]⟩ : TypeChecker).errors = tc2.errors) ∨
        (lhs_ty ≠ rhs_ty ∧ T.Integer32 = T.Unknown ∧
          (⟨[], [], [(3, T.Integer32), (2, T.Integer32),
            (1, T.Integer32)]⟩ : TypeChecker).errors =
            tc2.errors ++ [msg_binop "+" lhs_ty rhs_ty])) :=
  binary_left_hint_mismatch_unknown 1 ⟨[], [], []⟩ (some 3)
    (.NumericLiteral (some 1) 1) (.NumericLiteral (some 2) 2) "+" none
    T.Integer32 ⟨[], [], [(3, T.Integer32), (2, T.Integer32), (1, T.Integer32)]⟩
    rfl

/-- C7: a call whose callee resolves to a `Function` type with a
different parameter count records exactly the one arity error on top of
the callee's own checking, leaves the arguments unchecked, and returns
`Unknown`. -/
theorem call_arity_mismatch_single_error (fuel : Nat) (tc : TypeChecker)
    (id : Option Nat) (args : List Node) (caller : Node) (expected : Option T)
    (params : List (Str × T)) (return_type : T) (tc1 : TypeChecker)
    (hcallee : check_expr fuel tc caller none =
      some (T.Function params return_type, tc1))
    (hmm : params.length ≠ args.length) :
    check_expr (fuel + 1) tc (.CallExpr id args caller) expected =
      some (T.Unknown, tc1.type_error
        (msg_arity caller params.length args.length
          (T.Function params return_type))) := by
  simp only [check_expr, hcallee]
  rw [if_pos hmm]

/-- Witness for C7: calling a unary function with no arguments. -/
theorem call_arity_mismatch_single_error_witness :
    check_expr 2 ⟨[[("f", T.Function [("x", T.Integer32)] T.Void)]], [], []⟩
      (.CallExpr (some 20) [] (.Identifier (some 21) "f")) none =
      some (T.Unknown,
        TypeChecker.type_error
          ⟨[[("f", T.Function [("x", T.Integer32)] T.Void)]], [],
            [(21, T.Function [("x", T.Integer32)] T.Void)]⟩
          (msg_arity (.Identifier (some 21) "f") 1 0
            (T.Function [("x", T.Integer32)] T.Void))) :=
  call_arity_mismatch_single_error 1
    ⟨[[("f", T.Function [("x", T.Integer32)] T.Void)]], [], []⟩ (some 20) []
    (.Identifier (some 21) "f") none [("x", T.Integer32)] T.Void
    ⟨[[("f", T.Function [("x", T.Integer32)] T.Void)]], [],
      [(21, T.Function [("x", T.Integer32)] T.Void)]⟩
    rfl (by decide)

/-- Top-level-`Return` recogniser of the function-body loop. -/
def is_return_stmt : Node → Bool
  | .Return _ _ => true
  | _ => false

/-- A body with no top-level `Return` leaves `saw_return` unchanged. -/
theorem fn_body_loop_no_return (check : CheckFn) (fname : Str) (rty : T) :
    ∀ (stmts : List Node) (tc : TypeChecker) (saw sawB : Bool)
      (tcB : TypeChecker),
      (∀ s ∈ stmts, is_return_stmt s = false) →
      fn_body_loop check fname rty tc stmts saw = some (sawB, tcB) →
      sawB = saw := by
  intro stmts
  induction stmts with
  | nil =>
    intro tc saw sawB tcB _ h
    simp only [fn_body_loop, Option.some.injEq, Prod.mk.injEq] at h
    exact h.1.symm
  | cons s rest ih =>
    intro tc saw sawB tcB hno h
    have hs := hno s (by simp)
    cases s <;>
      first
        | exact Bool.noConfusion hs
        | (simp only [fn_body_loop] at h
           split at h
           · exact absurd h (by simp)
           · rename_i v tc1 hchk
             exact ih tc1 saw sawB tcB (fun x hx => hno x (by simp [hx])) h)

/-- `exit_scope` leaves the batched errors unchanged. -/
theorem exit_scope_errors {tc tc1 : TypeChecker}
    (h : tc.exit_scope = some tc1) :
    tc1.errors = tc.errors ∧ ∃ frame rest, tc.scopes = frame :: rest ∧
      tc1 = { tc with scopes := rest } := by
  unfold TypeChecker.exit_scope at h
  split at h
  · simp at h
  · rename_i frame rest heq
    simp only [Option.some.injEq] at h
    exact ⟨by rw [← h], frame, rest, heq, h.symm⟩

/-- `scope_insert` leaves errors and type table unchanged and conses the
binding onto the innermost frame. -/
theorem scope_insert_some {tc : TypeChecker} {n : Str} {ty : T}
    {tc1 : TypeChecker} (h : scope_insert tc n ty = some tc1) :
    ∃ frame rest, tc.scopes = frame :: rest ∧
      tc1 = { tc with scopes := ((n, ty) :: frame) :: rest } := by
  unfold scope_insert at h
  split at h
  · simp at h
  · rename_i frame rest heq
    simp only [Option.some.injEq] at h
    exact ⟨frame, rest, heq, h.symm⟩

/-- Successful `write_node_type` outcomes: the returned type is the
written one, the table gains the binding at the head, everything else is
unchanged. -/
theorem write_node_type_some {node : Node} {ty0 : T} {tcI : TypeChecker}
    {ty : T} {tc' : TypeChecker}
    (h : write_node_type node ty0 tcI = some (ty, tc')) :
    ty = ty0 ∧ ∃ nid, node_id node = some nid ∧
      tc' = { tcI with type_table := (nid, ty0) :: tcI.type_table } := by
  unfold write_node_type at h
  split at h
  · simp at h
  · rename_i nid hnid
    simp only [Option.some.injEq, Prod.mk.injEq] at h
    exact ⟨h.1.symm, nid, hnid, h.2.symm⟩

/-- C4 counterexample: a function declared `void` with no `return` in
its body still gets exactly one missing-return error (the code compares
the declared type against `Unknown`, not against `void`). -/
theorem void_missing_return_errors :
    result_errors (check_expr 1 ⟨[[]], [], []⟩
      (.FunctionDefinition (some 1) [] "f" [] T.Void) none) =
      some ["Function `f` missing return of type `void`"] ∧
    result_type (check_expr 1 ⟨[[]], [], []⟩
      (.FunctionDefinition (some 1) [] "f" [] T.Void) none) =
      some (T.Function [] T.Void) := by
  exact ⟨rfl, rfl⟩

/-- C4 (amended): for a function whose body contains no top-level
`return`, exactly one missing-return error is appended whenever the
declared return type differs from `Unknown` — `void` included — and none
when the declared type is `Unknown`. -/
theorem missing_return_error_unless_unknown (fuel : Nat) (tc : TypeChecker)
    (id : Option Nat) (params : List (Str × T)) (name : Str)
    (body : List Node) (return_type : T) (expected : Option T) (ty : T)
    (tc' : TypeChecker)
    (hnoret : ∀ s ∈ body, is_return_stmt s = false)
    (h : check_expr (fuel + 1) tc
      (.FunctionDefinition id params name body return_type) expected =
      some (ty, tc')) :
    ∃ tcP tcB,
      bind_params tc.enter_scope params = some tcP ∧
      fn_body_loop (check_expr fuel) name return_type tcP body false =
        some (false, tcB) ∧
      tc'.errors = tcB.errors ++
        (if return_type = T.Unknown then []
          else [msg_missing_return name return_type]) := by
  simp only [check_expr] at h
  split at h
  · exact absurd h (by simp)
  rename_i tcP hbp
  split at h
  · exact absurd h (by simp)
  rename_i saw tcB hloop
  have hsaw : saw = false :=
    fn_body_loop_no_return (check_expr fuel) name return_type body tcP false
      saw tcB hnoret hloop
  subst hsaw
  refine ⟨tcP, tcB, hbp, hloop, ?_⟩
  by_cases hrt : return_type = T.Unknown
  · simp only [hrt, ne_eq, not_true_eq_false, false_and, if_false] at h
    split at h
    · exact absurd h (by simp)
    rename_i tcE hexit
    split at h
    · exact absurd h (by simp)
    rename_i tcI hins
    obtain ⟨hwty, nid, hnid, hwst⟩ := write_node_type_some h
    obtain ⟨heE, _⟩ := exit_scope_errors hexit
    obtain ⟨frame, rest, _, hiS⟩ := scope_insert_some hins
    subst hwst hiS
    simp [hrt, heE]
  · simp only [ne_eq, hrt, not_false_eq_true, true_and, if_true] at h
    split at h
    · exact absurd h (by simp)
    rename_i tcE hexit
    split at h
    · exact absurd h (by simp)
    rename_i tcI hins
    obtain ⟨hwty, nid, hnid, hwst⟩ := write_node_type_some h
    obtain ⟨heE, _⟩ := exit_scope_errors hexit
    obtain ⟨frame, rest, _, hiS⟩ := scope_insert_some hins
    subst hwst hiS
    simp [hrt, heE, type_error_errors]

/-- Witness for C4 (amended): `-> f() => i32 { }` yields exactly the one
missing-return error. -/
theorem missing_return_error_unless_unknown_witness :
    ∃ tcP tcB,
      bind_params (⟨[[]], [], []⟩ : TypeChecker).enter_scope [] = some tcP ∧
      fn_body_loop (check_expr 0) "f" T.Integer32 tcP [] false =
        some (false, tcB) ∧
      (⟨[[("f", T.Function [] T.Integer32)]],
          ["Function `f` missing return of type `i32`"],
          [(1, T.Function [] T.Integer32)]⟩ : TypeChecker).errors =
        tcB.errors ++
          (if T.Integer32 = T.Unknown then []
            else [msg_missing_return "f" T.Integer32]) :=
  missing_return_error_unless_unknown 0 ⟨[[]], [], []⟩ (some 1) [] "f" []
    T.Integer32 none (T.Function [] T.Integer32)
    ⟨[[("f", T.Function [] T.Integer32)]],
      ["Function `f` missing return of type `i32`"],
      [(1, T.Function [] T.Integer32)]⟩
    (by simp) rfl

/-- `bind_params` on a non-empty scope stack only extends the innermost
frame (each parameter is consed, so the frame gains `params.reverse`). -/
theorem bind_params_eq (params : List (Str × T)) :
    ∀ (frame : List (Str × T)) (rest : List (List (Str × T)))
      (errs : List Str) (tt : List (Nat × T)),
      bind_params ⟨frame :: rest, errs, tt⟩ params =
        some ⟨(params.reverse ++ frame) :: rest, errs, tt⟩ := by
  induction params with
  | nil => intro frame rest errs tt; simp [bind_params]
  | cons p ps ih =>
    intro frame rest errs tt
    obtain ⟨pn, pt⟩ := p
    simp only [bind_params, scope_insert]
    rw [ih ((pn, pt) :: frame) rest errs tt]
    simp

/-- `frame_get` misses every name the frame does not mention. -/
theorem frame_get_none (l : List (Str × T)) (name : Str)
    (h : ∀ p ∈ l, p.1 ≠ name) : frame_get l name = none := by
  induction l with
  | nil => rfl
  | cons p rest ih =>
    obtain ⟨k, v⟩ := p
    have hk : k ≠ name := h (k, v) (by simp)
    simp only [frame_get, if_neg hk]
    exact ih (fun q hq => h q (by simp [hq]))

/-- C8: the function's signature reaches the enclosing scope only after
the body has been checked and the body frame popped; while the body is
checked the function's own name is unbound (absent an outer binding), so
a self-recursive call resolves its callee to `Unknown` and the call to
`Infer` — not to the function's type. -/
theorem fn_signature_registered_after_body (fuel : Nat) (tc : TypeChecker)
    (id : Option Nat) (params : List (Str × T)) (name : Str)
    (body : List Node) (return_type : T) (expected : Option T) (ty : T)
    (tc' : TypeChecker)
    (h : check_expr (fuel + 1) tc
      (.FunctionDefinition id params name body return_type) expected =
      some (ty, tc'))
    (hpn : ∀ p ∈ params, p.1 ≠ name)
    (houter : lookup_scopes tc.scopes name = none) :
    ∃ tcP saw tcB tcE tcI,
      bind_params tc.enter_scope params = some tcP ∧
      tcP.lookup_variable_type name = none ∧
      fn_body_loop (check_expr fuel) name return_type tcP body false =
        some (saw, tcB) ∧
      (if return_type ≠ T.Unknown ∧ saw = false
        then tcB.type_error (msg_missing_return name return_type)
        else tcB).exit_scope = some tcE ∧
      scope_insert tcE name (T.Function params return_type) = some tcI ∧
      write_node_type (.FunctionDefinition id params name body return_type)
        (T.Function params return_type) tcI = some (ty, tc') ∧
      ty = T.Function params return_type ∧
      tc'.lookup_variable_type name = some (T.Function params return_type) ∧
      (∀ (fuelX : Nat) (tcX : TypeChecker) (iid : Option Nat)
          (r : T × TypeChecker),
        lookup_scopes tcX.scopes name = none →
        check_expr (fuelX + 1) tcX (.Identifier iid name) none = some r →
        r.1 = T.Unknown) ∧
      (∀ (fuelX : Nat) (tcX : TypeChecker) (cid iid : Option Nat)
          (cargs : List Node) (ex : Option T) (r : T × TypeChecker),
        lookup_scopes tcX.scopes name = none →
        check_expr (fuelX + 1 + 1) tcX
          (.CallExpr cid cargs (.Identifier iid name)) ex = some r →
        r.1 = T.Infer) := by
  have hident : ∀ (fuelX : Nat) (tcX : TypeChecker) (iid : Option Nat)
      (r : T × TypeChecker),
      lookup_scopes tcX.scopes name = none →
      check_expr (fuelX + 1) tcX (.Identifier iid name) none = some r →
      r.1 = T.Unknown := by
    intro fuelX tcX iid r hun hr
    obtain ⟨rt, rc⟩ := r
    simp only [check_expr, TypeChecker.lookup_variable_type, hun] at hr
    exact (write_node_type_some hr).1
  have hcall : ∀ (fuelX : Nat) (tcX : TypeChecker) (cid iid : Option Nat)
      (cargs : List Node) (ex : Option T) (r : T × TypeChecker),
      lookup_scopes tcX.scopes name = none →
      check_expr (fuelX + 1 + 1) tcX
        (.CallExpr cid cargs (.Identifier iid name)) ex = some r →
      r.1 = T.Infer := by
    intro fuelX tcX cid iid cargs ex r hun hr
    obtain ⟨rt, rc⟩ := r
    simp only [check_expr] at hr
    split at hr
    · exact absurd hr (by simp)
    rename_i callee_ty tc1 hc
    split at hr
    · simp only [TypeChecker.lookup_variable_type, hun] at hc
      exact absurd (write_node_type_some hc).1 (by simp)
    · split at hr
      · exact absurd hr (by simp)
      rename_i tc2 hargs
      exact (write_node_type_some hr).1
  simp only [check_expr] at h
  split at h
  · exact absurd h (by simp)
  rename_i tcP hbp
  split at h
  · exact absurd h (by simp)
  rename_i saw tcB hloop
  split at h
  · exact absurd h (by simp)
  rename_i tcE hexit
  split at h
  · exact absurd h (by simp)
  rename_i tcI hins
  obtain ⟨hty, nid, hnid, hwst⟩ := write_node_type_some h
  have hbp' := hbp
  have henter : tc.enter_scope = ⟨[] :: tc.scopes, tc.errors, tc.type_table⟩ := rfl
  rw [henter, bind_params_eq params [] tc.scopes tc.errors tc.type_table]
    at hbp'
  have htcP : tcP = ⟨(params.reverse ++ []) :: tc.scopes, tc.errors,
      tc.type_table⟩ := by
    simpa using hbp'.symm
  refine ⟨tcP, saw, tcB, tcE, tcI, hbp, ?_, hloop, hexit, hins, h, hty, ?_,
    hident, hcall⟩
  · rw [htcP]
    show lookup_scopes ((params.reverse ++ []) :: tc.scopes) name = none
    have hfr : frame_get params.reverse name = none := by
      refine frame_get_none _ _ ?_
      intro p hp
      exact hpn p (List.mem_reverse.mp hp)
    simp [lookup_scopes, hfr, houter]
  · obtain ⟨frame, rest, hsc, hiS⟩ := scope_insert_some hins
    rw [hwst]
    show lookup_scopes tcI.scopes name = some (T.Function params return_type)
    simp [hiS, lookup_scopes, frame_get]

/-- Witness for C8: `-> f() => void { }` checked in one empty enclosing
scope; afterwards `f` is bound to `fn() -> void` in that scope. -/
theorem fn_signature_registered_after_body_witness :
    ∃ tcP saw tcB tcE tcI,
      bind_params (⟨[[]], [], []⟩ : TypeChecker).enter_scope [] = some tcP ∧
      tcP.lookup_variable_type "f" = none ∧
      fn_body_loop (check_expr 0) "f" T.Void tcP [] false = some (saw, tcB) ∧
      (if T.Void ≠ T.Unknown ∧ saw = false
        then tcB.type_error (msg_missing_return "f" T.Void)
        else tcB).exit_scope = some tcE ∧
      scope_insert tcE "f" (T.Function [] T.Void) = some tcI ∧
      write_node_type (.FunctionDefinition (some 5) [] "f" [] T.Void)
        (T.Function [] T.Void) tcI =
        some (T.Function [] T.Void,
          ⟨[[("f", T.Function [] T.Void)]],
            ["Function `f` missing return of type `void`"],
            [(5, T.Function [] T.Void)]⟩) ∧
      T.Function [] T.Void = T.Function [] T.Void ∧
      TypeChecker.lookup_variable_type
        ⟨[[("f", T.Function [] T.Void)]],
          ["Function `f` missing return of type `void`"],
          [(5, T.Function [] T.Void)]⟩ "f" = some (T.Function [] T.Void) ∧
      (∀ (fuelX : Nat) (tcX : TypeChecker) (iid : Option Nat)
          (r : T × TypeChecker),
        lookup_scopes tcX.scopes "f" = none →
        check_expr (fuelX + 1) tcX (.Identifier iid "f") none = some r →
        r.1 = T.Unknown) ∧
      (∀ (fuelX : Nat) (tcX : TypeChecker) (cid iid : Option Nat)
          (cargs : List Node) (ex : Option T) (r : T × TypeChecker),
        lookup_scopes tcX.scopes "f" = none →
        check_expr (fuelX + 1 + 1) tcX
          (.CallExpr cid cargs (.Identifier iid "f")) ex = some r →
        r.1 = T.Infer) :=
  fn_signature_registered_after_body 0 ⟨[[]], [], []⟩ (some 5) [] "f" []
    T.Void none (T.Function [] T.Void)
    ⟨[[("f", T.Function [] T.Void)]],
      ["Function `f` missing return of type `void`"],
      [(5, T.Function [] T.Void)]⟩
    rfl (by simp) rfl

/-- C1 counterexample: a call with an arity mismatch returns (type
`Unknown`) without writing the call node's id into the type table — the
early `return T::Unknown` skips the table insert. -/
theorem arity_mismatch_skips_type_table :
    result_type (check_expr 2
      ⟨[[("f", T.Function [("x", T.Integer32)] T.Void)]], [], []⟩
      (.CallExpr (some 10) [] (.Identifier (some 11) "f")) none) =
      some T.Unknown ∧
    result_table_entry (check_expr 2
      ⟨[[("f", T.Function [("x", T.Integer32)] T.Void)]], [], []⟩
      (.CallExpr (some 10) [] (.Identifier (some 11) "f")) none) 10 =
      some none ∧
    result_table_entry (check_expr 2
      ⟨[[("f", T.Function [("x", T.Integer32)] T.Void)]], [], []⟩
      (.CallExpr (some 10) [] (.Identifier (some 11) "f")) none) 11 =
      some (some (T.Function [("x", T.Integer32)] T.Void)) := by
  exact ⟨rfl, rfl, rfl⟩

/-- C1 (amended): whenever `check_expr` returns, the returned type is in
the type table under the node's id — except on the call-arity-mismatch
early return, where the node is a call expression, the type is `Unknown`
and no entry for the call is written. -/
theorem type_table_write_or_arity_skip (fuel : Nat) (tc : TypeChecker)
    (node : Node) (expected : Option T) (ty : T) (tc' : TypeChecker)
    (h : check_expr fuel tc node expected = some (ty, tc')) :
    (∃ nid, node_id node = some nid ∧
      table_get tc'.type_table nid = some ty) ∨
    (ty = T.Unknown ∧ ∃ cid cargs ccaller,
      node = .CallExpr cid cargs ccaller) := by
  cases fuel with
  | zero => exact Option.noConfusion h
  | succ fuel =>
    cases node <;> simp only [check_expr] at h <;>
      (repeat'
        first
          | exact Option.noConfusion h
          | (obtain ⟨hty, nid, hnid, hst⟩ := write_node_type_some h
             subst hty hst
             exact Or.inl ⟨nid, hnid, by simp [table_get]⟩)
          | (simp only [Option.some.injEq, Prod.mk.injEq] at h
             exact Or.inr ⟨h.1.symm, _, _, _, rfl⟩)
          | split at h)

/-- Witness for C1 (amended) on a literal node whose type lands in the
table. -/
theorem type_table_write_or_arity_skip_witness :
    (∃ nid, node_id (.BoolLiteral (some 7) true) = some nid ∧
      table_get (⟨[], [], [(7, T.Boolean)]⟩ : TypeChecker).type_table nid =
        some T.Boolean) ∨
    (T.Boolean = T.Unknown ∧ ∃ cid cargs ccaller,
      (.BoolLiteral (some 7) true : Node) = .CallExpr cid cargs ccaller) :=
  type_table_write_or_arity_skip 1 ⟨[], [], []⟩ (.BoolLiteral (some 7) true)
    none T.Boolean ⟨[], [], [(7, T.Boolean)]⟩ rfl

end Velvet
